import Mathlib

/-!
Verification development for the submission-processor repository.

The Python sources are shallowly embedded as Lean definitions:

* `src/adopt/tools.py` — the `UserSubmission` pydantic model (field
  validators), the `GoogleAPIManager` credential manager, and the three
  stage tools `CreateGoogleDocTool`, `ExportDocxTool`, `SendEmailTool`.
* `src/adopt/agent_backup.py` — the LangGraph workflow: node functions,
  conditional edges, `_handle_error`, `_finalize`, and the entry point
  `process_submission`.

External collaborators (the Google service SDK calls, the
`email_validator` library, MIME/base64 construction, the clock) are
modelled as oracle parameters or as pure abstractions, each noted at its
definition.  Stateful behaviour (the credential cache, the token file,
network calls) is modelled by explicit state passing plus event traces.
-/

namespace SubmissionProcessor

/-! ## Python string primitives

`pyStrip` models Python `str.strip()` (drop whitespace from both ends);
`pyIsSpace` models the ASCII part of Python `str.isspace`. -/

def pyIsSpace (c : Char) : Bool :=
  c = ' ' || c = '\t' || c = '\n' || c = '\r' || c = '\x0b' || c = '\x0c'

def stripChars (l : List Char) : List Char :=
  ((l.dropWhile pyIsSpace).reverse.dropWhile pyIsSpace).reverse

def pyStrip (s : String) : String :=
  ⟨stripChars s.data⟩

/-! ## Model of the external `email_validator` library

`tools.py` line 38 calls `email_validator.validate_email(v)` and returns
`valid.email` on success.  The library is an external collaborator; it is
modelled as a pure syntactic check: `local-part@domain`, split at the last
`@`, with a valid dotted domain (at least two labels).  The library's
normalization beyond the syntax check (IDNA, case folding) is abstracted
as the identity on the accepted address. -/

def validLocalChar (c : Char) : Bool :=
  c.isAlphanum || c = '.' || c = '_' || c = '%' || c = '+' || c = '-'

def validDomainChar (c : Char) : Bool :=
  c.isAlphanum || c = '-'

/-- Split a character list at the last occurrence of `sep`:
`splitLastAt sep l = some (before, after)` with `l = before ++ sep :: after`
and `sep ∉ after`; `none` when `sep ∉ l`. -/
def splitLastAt (sep : Char) : List Char → Option (List Char × List Char)
  | [] => none
  | c :: rest =>
    match splitLastAt sep rest with
    | some (before, after) => some (c :: before, after)
    | none => if c = sep then some ([], rest) else none

/-- Valid dotted domain: labels of `validDomainChar`s separated by single
dots, every label nonempty, and at least one dot (a TLD is required).
`labelNonempty` records whether the current label has a character so far,
`seenDot` whether a dot has occurred. -/
def domainAux : List Char → Bool → Bool → Bool
  | [], labelNonempty, seenDot => labelNonempty && seenDot
  | c :: rest, labelNonempty, seenDot =>
    if c = '.' then labelNonempty && domainAux rest false true
    else validDomainChar c && domainAux rest true seenDot

def validDomain (l : List Char) : Bool :=
  domainAux l false false

def validLocalPart (l : List Char) : Bool :=
  !l.isEmpty && l.all validLocalChar

/-- Syntactic email validity, modelling the external
`email_validator.validate_email` check (tools.py line 38). -/
def validEmailString (s : String) : Bool :=
  match splitLastAt '@' s.data with
  | some (loc, dom) => validLocalPart loc && validDomain dom
  | none => false

/-! ## `UserSubmission` (tools.py lines 22-41)

The pydantic model: four required string fields; `name`/`address` carry
`min_length=1` and a validator stripping whitespace and rejecting blank
values; `email`/`recipient_email` carry a validator calling
`email_validator`.  Raw input is a Python keyword dict, embedded as an
association list; pydantic v1 validates every field and collects all
field errors. -/

structure UserSubmission where
  name : String
  email : String
  address : String
  recipient_email : String
deriving Repr, DecidableEq

abbrev InputDict := List (String × String)

inductive FieldError where
  /-- pydantic: the key is missing from the input dict (field required). -/
  | required (field : String)
  /-- pydantic `min_length=1` constraint violated (the raw value is `""`). -/
  | minLength (field : String)
  /-- Validator `validate_required_fields` (tools.py lines 29-33): blank after strip. -/
  | emptyField (field : String)
  /-- Validator `validate_email` (tools.py lines 35-41): Invalid email format. -/
  | invalidEmail (field : String)
deriving Repr, DecidableEq

def FieldError.msg : FieldError → String
  | .required f => f ++ ": field required"
  | .minLength f => f ++ ": ensure this value has at least 1 characters"
  | .emptyField f => f ++ ": Field cannot be empty"
  | .invalidEmail f => f ++ ": Invalid email format"

/-- Rendering of `str(pydantic.ValidationError)`, abstracted to a join of
the per-field messages. -/
def pydanticErrStr (errs : List FieldError) : String :=
  String.intercalate "; " (errs.map FieldError.msg)

/-- Validation of the `name`/`address` fields: `min_length=1`, then the
`validate_required_fields` validator (strip; reject blank; store the
stripped value). -/
def validateNameField (field : String) (d : InputDict) : Except FieldError String :=
  match d.lookup field with
  | none => .error (.required field)
  | some v =>
    if v.length < 1 then .error (.minLength field)
    else if pyStrip v = "" then .error (.emptyField field)
    else .ok (pyStrip v)

/-- Validation of the `email`/`recipient_email` fields: the
`validate_email` validator (store the address the library accepts). -/
def validateEmailField (field : String) (d : InputDict) : Except FieldError String :=
  match d.lookup field with
  | none => .error (.required field)
  | some v =>
    if validEmailString v then .ok v else .error (.invalidEmail field)

def errOf {α : Type} : Except FieldError α → List FieldError
  | .error e => [e]
  | .ok _ => []

/-- Model construction `UserSubmission(**d)`: validate all four declared fields in
declaration order, collecting every field error (pydantic v1 semantics);
succeed only when all fields validate. -/
def userSubmissionFromDict (d : InputDict) : Except (List FieldError) UserSubmission :=
  match validateNameField "name" d, validateEmailField "email" d,
        validateNameField "address" d, validateEmailField "recipient_email" d with
  | .ok n, .ok e, .ok a, .ok r => .ok ⟨n, e, a, r⟩
  | rn, re, ra, rr => .error (errOf rn ++ errOf re ++ errOf ra ++ errOf rr)

/-- The dict `submission.dict()` of a validated submission. -/
def subDict (s : UserSubmission) : InputDict :=
  [("name", s.name), ("email", s.email), ("address", s.address),
   ("recipient_email", s.recipient_email)]

/-! ## Stage results (the dicts returned by the tools' `_run` methods)

Each tool returns either `{success: True, ...payload}` or
`{success: False, error: str(e)}`; the two dict shapes are embedded as a
two-constructor inductive per tool. -/

inductive DocCreationResult where
  | ok (document_id document_url title : String)
  | failed (error : String)
deriving Repr, DecidableEq

def DocCreationResult.success : DocCreationResult → Bool
  | .ok .. => true
  | .failed _ => false

def DocCreationResult.document_id? : DocCreationResult → Option String
  | .ok i _ _ => some i
  | .failed _ => none

def DocCreationResult.document_url? : DocCreationResult → Option String
  | .ok _ u _ => some u
  | .failed _ => none

def DocCreationResult.errorStr : DocCreationResult → String
  | .ok .. => "Unknown error"
  | .failed e => e

inductive ExportResult where
  | ok (docx_content mime_type : String)
  | failed (error : String)
deriving Repr, DecidableEq

def ExportResult.success : ExportResult → Bool
  | .ok .. => true
  | .failed _ => false

def ExportResult.errorStr : ExportResult → String
  | .ok .. => "Unknown error"
  | .failed e => e

inductive EmailResult where
  | ok (message_id recipient : String)
  | failed (error : String)
deriving Repr, DecidableEq

def EmailResult.success : EmailResult → Bool
  | .ok .. => true
  | .failed _ => false

def EmailResult.message_id? : EmailResult → Option String
  | .ok m _ => some m
  | .failed _ => none

def EmailResult.recipient? : EmailResult → Option String
  | .ok _ r => some r
  | .failed _ => none

def EmailResult.errorStr : EmailResult → String
  | .ok .. => "Unknown error"
  | .failed e => e

/-! ## `CreateGoogleDocTool._run` (tools.py lines 138-203)

The Google Docs/Drive SDK calls are oracle parameters that either return
a value or raise (`Except.error` = raised Python exception, carrying
`str(e)`).  `now` models `datetime.now().isoformat()`.  `GEvent` records
each outbound service call the tool actually performs. -/

structure DocOracle where
  now : String
  getDocsService : Except String Unit
  docsCreate : String → Except String String
  batchUpdate : String → String → Except String Unit
  getDriveService : Except String Unit
  driveMove : String → Except String Unit

inductive GEvent where
  | docsCreateCall (title : String)
  | batchUpdateCall (docId text : String)
  | driveMoveCall (docId : String)
deriving Repr, DecidableEq

def docContentText (s : UserSubmission) : String :=
  "Name: " ++ s.name ++ "\n\nEmail: " ++ s.email ++ "\n\nAddress: " ++ s.address

def docTitleText (s : UserSubmission) (now : String) : String :=
  "Submission - " ++ s.name ++ " - " ++ now

/-- Tool method `CreateGoogleDocTool._run(submission_data)`: re-validate via
`UserSubmission(**submission_data)`, build the title and content, create
the document, insert the text, optionally move it to a Drive folder, and
return the success dict; any raise is caught and returned as the failure
dict. -/
def createDocRun (o : DocOracle) (drive_folder_id : Option String) (d : InputDict) :
    DocCreationResult × List GEvent :=
  match userSubmissionFromDict d with
  | .error errs => (.failed (pydanticErrStr errs), [])
  | .ok s =>
    let title := docTitleText s o.now
    match o.getDocsService with
    | .error e => (.failed e, [])
    | .ok _ =>
      match o.docsCreate title with
      | .error e => (.failed e, [.docsCreateCall title])
      | .ok doc_id =>
        let content := docContentText s
        match o.batchUpdate doc_id content with
        | .error e => (.failed e, [.docsCreateCall title, .batchUpdateCall doc_id content])
        | .ok _ =>
          match drive_folder_id with
          | some _ =>
            (match o.getDriveService with
             | .error e => (.failed e, [.docsCreateCall title, .batchUpdateCall doc_id content])
             | .ok _ =>
               match o.driveMove doc_id with
               | .error e =>
                 (.failed e,
                  [.docsCreateCall title, .batchUpdateCall doc_id content, .driveMoveCall doc_id])
               | .ok _ =>
                 (.ok doc_id ("https://docs.google.com/document/d/" ++ doc_id) title,
                  [.docsCreateCall title, .batchUpdateCall doc_id content, .driveMoveCall doc_id]))
          | none =>
            (.ok doc_id ("https://docs.google.com/document/d/" ++ doc_id) title,
             [.docsCreateCall title, .batchUpdateCall doc_id content])

/-- Modelled from the spec: a reference Document Creator that
"performs no validation of its own" (spec section 3 invariant).  It reads
the submission fields directly from the input dict and otherwise performs
the same service calls as `createDocRun`. -/
def createDocNoValidation (o : DocOracle) (drive_folder_id : Option String) (d : InputDict) :
    DocCreationResult × List GEvent :=
  let s : UserSubmission :=
    ⟨(d.lookup "name").getD "", (d.lookup "email").getD "",
     (d.lookup "address").getD "", (d.lookup "recipient_email").getD ""⟩
  let title := docTitleText s o.now
  match o.getDocsService with
  | .error e => (.failed e, [])
  | .ok _ =>
    match o.docsCreate title with
    | .error e => (.failed e, [.docsCreateCall title])
    | .ok doc_id =>
      let content := docContentText s
      match o.batchUpdate doc_id content with
      | .error e => (.failed e, [.docsCreateCall title, .batchUpdateCall doc_id content])
      | .ok _ =>
        match drive_folder_id with
        | some _ =>
          (match o.getDriveService with
           | .error e => (.failed e, [.docsCreateCall title, .batchUpdateCall doc_id content])
           | .ok _ =>
             match o.driveMove doc_id with
             | .error e =>
               (.failed e,
                [.docsCreateCall title, .batchUpdateCall doc_id content, .driveMoveCall doc_id])
             | .ok _ =>
               (.ok doc_id ("https://docs.google.com/document/d/" ++ doc_id) title,
                [.docsCreateCall title, .batchUpdateCall doc_id content, .driveMoveCall doc_id]))
        | none =>
          (.ok doc_id ("https://docs.google.com/document/d/" ++ doc_id) title,
           [.docsCreateCall title, .batchUpdateCall doc_id content])

/-! ## `ExportDocxTool._run` (tools.py lines 216-240) -/

def docxMimeType : String :=
  "application/vnd.openxmlformats-officedocument.wordprocessingml.document"

structure ExportOracle where
  getDriveService : Except String Unit
  exportMedia : String → String → Except String String

/-- Tool method `ExportDocxTool._run(document_id)`: export the document as DOCX;
any raise is caught and returned as the failure dict. -/
def exportDocxRun (o : ExportOracle) (document_id : String) : ExportResult :=
  match o.getDriveService with
  | .error e => .failed e
  | .ok _ =>
    match o.exportMedia document_id docxMimeType with
    | .error e => .failed e
    | .ok content => .ok content docxMimeType

/-! ## `SendEmailTool._run` (tools.py lines 253-305)

MIME multipart construction and base64 url-safe encoding are pure local
computations; they are abstracted as a concatenation of the message
parts.  The Gmail send call is an oracle. -/

def mimeRawMessage (recipient subject body attachmentName content : String) : String :=
  "to=" ++ recipient ++ ";subject=" ++ subject ++ ";body=" ++ body ++
  ";attachment=" ++ attachmentName ++ ";content=" ++ content

structure EmailOracle where
  getGmailService : Except String Unit
  gmailSend : String → Except String String

def emailBodyText (submission_name document_title document_url : String) : String :=
  "New submission received from " ++ submission_name ++ ":\n\nDocument: " ++
  document_title ++ "\nView online: " ++ document_url ++
  "\n\nPlease find the submission details in the attached DOCX file.\n"

/-- Tool method `SendEmailTool._run(docx_content, document_title, document_url,
submission_name, recipient_email)`: build the MIME message and send it via
Gmail; any raise is caught and returned as the failure dict. -/
def sendEmailRun (o : EmailOracle)
    (docx_content document_title document_url submission_name recipient_email : String) :
    EmailResult :=
  match o.getGmailService with
  | .error e => .failed e
  | .ok _ =>
    let raw := mimeRawMessage recipient_email ("New Submission: " ++ submission_name)
      (emailBodyText submission_name document_title document_url)
      (document_title ++ ".docx") docx_content
    match o.gmailSend raw with
    | .error e => .failed e
    | .ok message_id => .ok message_id recipient_email

/-! ## `GoogleAPIManager.get_credentials` (tools.py lines 59-119)

The in-memory cache `self._creds` is the explicit state
`Option TokenInfo`; the token file and the identity provider are a
`CredWorld`.  `CredEvent` records file reads/writes and outbound
network exchanges.  An uncaught Python raise is `Except.error`. -/

structure TokenInfo where
  /-- Flag `creds.valid` (token present and not expired). -/
  valid : Bool
  /-- Flag `creds.expired`. -/
  expired : Bool
  /-- truthiness of `creds.refresh_token` (a refresh token is present). -/
  refresh_token : Bool
  /-- identity of the token record. -/
  tag : String
deriving Repr, DecidableEq

inductive CredEvent where
  | fileRead
  | refreshCall
  | flowCall
  | fileWrite
deriving Repr, DecidableEq

structure CredWorld where
  /-- contents of the token file at `token_path` (`none`: no file). -/
  fileToken : Option TokenInfo
  /-- Exchange `creds.refresh(Request())` against the token endpoint. -/
  refreshResult : TokenInfo → Except String TokenInfo
  /-- the interactive OAuth flow (`run_local_server` / `run_console`). -/
  flowResult : Except String TokenInfo

/-- The body of `get_credentials` past the in-memory cache check: load
the token file; if absent or invalid, refresh (when expired with a
refresh token) or run the interactive flow, then write the token file;
finally cache and return the credential. -/
def loadAndRenew (w : CredWorld) :
    Except String (TokenInfo × Option TokenInfo × List CredEvent) :=
  match w.fileToken with
  | some c =>
    if c.valid then .ok (c, some c, [.fileRead])
    else if c.expired && c.refresh_token then
      match w.refreshResult c with
      | .ok c2 => .ok (c2, some c2, [.fileRead, .refreshCall, .fileWrite])
      | .error e => .error e
    else
      match w.flowResult with
      | .ok c2 => .ok (c2, some c2, [.fileRead, .flowCall, .fileWrite])
      | .error e => .error e
  | none =>
    match w.flowResult with
    | .ok c2 => .ok (c2, some c2, [.flowCall, .fileWrite])
    | .error e => .error e

/-- Method `get_credentials()`: return the in-memory credential when it is set
and valid; otherwise load/refresh/re-authorize.  The result carries the
returned credential, the new in-memory cache, and the event trace. -/
def get_credentials (mgr : Option TokenInfo) (w : CredWorld) :
    Except String (TokenInfo × Option TokenInfo × List CredEvent) :=
  match mgr with
  | some c => if c.valid then .ok (c, some c, []) else loadAndRenew w
  | none => loadAndRenew w

/-! ## The LangGraph workflow (agent_backup.py)

`AgentState` embeds the `AgentState` TypedDict (lines 19-36); the result
slots start as empty dicts, embedded as `none`.  The three tool calls
made by the stage nodes are oracle parameters (`StageOracles`), each of
which may raise; `StageEvent` records which tools a run invokes. -/

inductive ValidationResult where
  | ok (validated_data : InputDict)
  | failed (error : String)
deriving Repr, DecidableEq

def ValidationResult.success : ValidationResult → Bool
  | .ok _ => true
  | .failed _ => false

structure AgentState where
  user_input : InputDict
  validation_result : Option ValidationResult
  doc_creation_result : Option DocCreationResult
  docx_export_result : Option ExportResult
  email_result : Option EmailResult
  error_message : String
  retry_count : Nat
  success : Bool
  final_message : String
deriving Repr, DecidableEq

inductive StageEvent where
  | docCall
  | exportCall
  | emailCall
deriving Repr, DecidableEq

structure StageOracles where
  /-- behaviour of `self.doc_tool._run(validated_data)`. -/
  docRun : InputDict → Except String DocCreationResult
  /-- behaviour of `self.export_tool._run(document_id)`. -/
  exportRun : String → Except String ExportResult
  /-- behaviour of the agent's email-tool call, which passes
  `docx_content`, `document_title`, `document_url`, `submission_name`. -/
  emailRun : String → String → String → String → Except String EmailResult

/-- The `success` entry of a recorded stage dict, `False` when the slot
is still the empty dict — `.get("success", False)` as in `_finalize`;
the conditional edges (`_should_continue_after_validation` line 272 and
friends) read the key directly, which agrees on every state the nodes
produce (the slot is always set before its edge is evaluated). -/
def AgentState.validationOk (st : AgentState) : Bool :=
  (st.validation_result.map ValidationResult.success).getD false

def AgentState.docOk (st : AgentState) : Bool :=
  (st.doc_creation_result.map DocCreationResult.success).getD false

def AgentState.exportOk (st : AgentState) : Bool :=
  (st.docx_export_result.map ExportResult.success).getD false

def AgentState.emailOk (st : AgentState) : Bool :=
  (st.email_result.map EmailResult.success).getD false

/-- node `_validate_input` (lines 124-146): validate the raw user input
with the pydantic model; record the success dict or the failure dict
plus `error_message`. -/
def runValidateNode (st : AgentState) : AgentState :=
  match userSubmissionFromDict st.user_input with
  | .ok s => { st with validation_result := some (.ok (subDict s)) }
  | .error errs =>
    { st with
      validation_result := some (.failed (pydanticErrStr errs)),
      error_message := "Input validation failed: " ++ pydanticErrStr errs }

/-- node `_create_document` (lines 148-169): read `validated_data`, call
the doc tool, record its result; a raise inside the try block is caught
and recorded as a failure dict.  The fallback arm is the `KeyError` on
`validated_data` when validation did not succeed (unreachable through
the graph's edges). -/
def runCreateDocNode (o : StageOracles) (st : AgentState) : AgentState × List StageEvent :=
  match st.validation_result with
  | some (.ok vd) =>
    (match o.docRun vd with
     | .ok r =>
       ({ st with
          doc_creation_result := some r,
          error_message :=
            if r.success then st.error_message
            else "Document creation failed: " ++ r.errorStr },
        [.docCall])
     | .error e =>
       ({ st with
          doc_creation_result := some (.failed e),
          error_message := "Document creation failed: " ++ e },
        [.docCall]))
  | _ =>
    ({ st with
       doc_creation_result := some (.failed "KeyError: validated_data"),
       error_message := "Document creation failed: KeyError: validated_data" },
     [])

/-- node `_export_docx` (lines 171-192): read the created document's id,
call the export tool, record its result; raises are caught. -/
def runExportNode (o : StageOracles) (st : AgentState) : AgentState × List StageEvent :=
  match st.doc_creation_result with
  | some (.ok document_id _ _) =>
    (match o.exportRun document_id with
     | .ok r =>
       ({ st with
          docx_export_result := some r,
          error_message :=
            if r.success then st.error_message
            else "DOCX export failed: " ++ r.errorStr },
        [.exportCall])
     | .error e =>
       ({ st with
          docx_export_result := some (.failed e),
          error_message := "DOCX export failed: " ++ e },
        [.exportCall]))
  | _ =>
    ({ st with
       docx_export_result := some (.failed "KeyError: document_id"),
       error_message := "DOCX export failed: KeyError: document_id" },
     [])

/-- node `_send_email` (lines 194-224): read the exported content, the
document title and url, and the validated name; call the email tool;
raises are caught. -/
def runEmailNode (o : StageOracles) (st : AgentState) : AgentState × List StageEvent :=
  match st.docx_export_result, st.doc_creation_result, st.validation_result with
  | some (.ok docx_content _), some (.ok _ document_url title), some (.ok vd) =>
    (match vd.lookup "name" with
     | some submission_name =>
       (match o.emailRun docx_content title document_url submission_name with
        | .ok r =>
          ({ st with
             email_result := some r,
             error_message :=
               if r.success then st.error_message
               else "Email sending failed: " ++ r.errorStr },
           [.emailCall])
        | .error e =>
          ({ st with
             email_result := some (.failed e),
             error_message := "Email sending failed: " ++ e },
           [.emailCall]))
     | none =>
       ({ st with
          email_result := some (.failed "KeyError: name"),
          error_message := "Email sending failed: KeyError: name" },
        []))
  | _, _, _ =>
    ({ st with
       email_result := some (.failed "KeyError"),
       error_message := "Email sending failed: KeyError" },
     [])

/-- node `_handle_error` (lines 226-239): bump the (informational) retry
counter while it is below 3 and mark the run unsuccessful. -/
def runHandleErrorNode (st : AgentState) : AgentState :=
  let st' := if st.retry_count < 3 then { st with retry_count := st.retry_count + 1 } else st
  { st' with success := false }

def successMessage (doc_id document_url recipient message_id : String) : String :=
  "Submission processed successfully!\n\nDocument ID: " ++ doc_id ++
  "\nDocument URL: " ++ document_url ++ "\nEmail sent to: " ++ recipient ++
  "\nGmail Message ID: " ++ message_id

/-- node `_finalize` (lines 241-269): success iff the four recorded
results all report `success`; compose the success message from the
recorded ids, or the failure message from `error_message`. -/
def runFinalizeNode (st : AgentState) : AgentState :=
  if st.validationOk && st.docOk && st.exportOk && st.emailOk then
    { st with
      success := true,
      final_message :=
        successMessage
          ((st.doc_creation_result.bind DocCreationResult.document_id?).getD "")
          ((st.doc_creation_result.bind DocCreationResult.document_url?).getD "")
          ((st.email_result.bind EmailResult.recipient?).getD "")
          ((st.email_result.bind EmailResult.message_id?).getD "") }
  else
    { st with
      success := false,
      final_message := "Workflow failed: " ++ st.error_message }

/-- initial `AgentState` (lines 289-303), for an arbitrary input dict. -/
def initialState (input : InputDict) : AgentState :=
  { user_input := input
    validation_result := none
    doc_creation_result := none
    docx_export_result := none
    email_result := none
    error_message := ""
    retry_count := 0
    success := false
    final_message := "" }

/-- the compiled graph (`_build_workflow`, lines 68-122): entry at
`validate_input`; each stage's conditional edge continues on success and
enters `handle_error` on failure; `handle_error` always proceeds to
`finalize`; `finalize` is terminal.  The second component collects the
tool invocations of the run. -/
def runWorkflow (o : StageOracles) (input : InputDict) : AgentState × List StageEvent :=
  let st1 := runValidateNode (initialState input)
  if st1.validationOk then
    let r2 := runCreateDocNode o st1
    if r2.1.docOk then
      let r3 := runExportNode o r2.1
      if r3.1.exportOk then
        let r4 := runEmailNode o r3.1
        if r4.1.emailOk then
          (runFinalizeNode r4.1, r2.2 ++ r3.2 ++ r4.2)
        else
          (runFinalizeNode (runHandleErrorNode r4.1), r2.2 ++ r3.2 ++ r4.2)
      else
        (runFinalizeNode (runHandleErrorNode r3.1), r2.2 ++ r3.2)
    else
      (runFinalizeNode (runHandleErrorNode r2.1), r2.2)
  else
    (runFinalizeNode (runHandleErrorNode st1), [])

/-! ## `process_submission` (agent_backup.py lines 284-323) -/

structure Report where
  success : Bool
  message : String
  document_id : Option String
  document_url : Option String
  email_message_id : Option String
deriving Repr, DecidableEq

/-- the report dict composed from the final state (lines 308-314); the
`.get(...)` chains yield `None` when a stage never recorded a payload. -/
def buildReport (st : AgentState) : Report :=
  { success := st.success
    message := st.final_message
    document_id := st.doc_creation_result.bind DocCreationResult.document_id?
    document_url := st.doc_creation_result.bind DocCreationResult.document_url?
    email_message_id := st.email_result.bind EmailResult.message_id? }

/-- the `user_input` dict built by `process_submission` (lines 290-294):
only `name`, `email` and `address` are included. -/
def mkUserInput (name email address : String) : InputDict :=
  [("name", name), ("email", email), ("address", address)]

/-- Entry point `process_submission(name, email, address)` (lines 284-323): run the
workflow on the initial state and compose the report.  The embedded
workflow is total, so the `except` arm of lines 315-323 (converting a
raise from `workflow.invoke` into a failed report) is not reachable in
the model. -/
def processSubmission (o : StageOracles) (name email address : String) : Report :=
  buildReport (runWorkflow o (mkUserInput name email address)).1

/-! ## Lemmas about the string primitives -/

theorem dropWhile_head_not (p : Char → Bool) (l : List Char) (a : Char)
    (h : (l.dropWhile p).head? = some a) : p a = false := by
  induction l with
  | nil => simp [List.dropWhile] at h
  | cons c rest ih =>
    rw [List.dropWhile_cons] at h
    split at h
    · exact ih h
    · next hc =>
      simp only [List.head?_cons, Option.some.injEq] at h
      subst h
      simpa using hc

theorem dropWhile_eq_self_of_head (p : Char → Bool) (l : List Char)
    (h : ∀ a, l.head? = some a → p a = false) : l.dropWhile p = l := by
  cases l with
  | nil => rfl
  | cons c rest =>
    rw [List.dropWhile_cons]
    simp [h c rfl]

theorem stripChars_idem (l : List Char) : stripChars (stripChars l) = stripChars l := by
  unfold stripChars
  have h1 : (((l.dropWhile pyIsSpace).reverse.dropWhile pyIsSpace).reverse).dropWhile pyIsSpace
      = ((l.dropWhile pyIsSpace).reverse.dropWhile pyIsSpace).reverse := by
    apply dropWhile_eq_self_of_head
    intro a ha
    rw [List.head?_reverse] at ha
    obtain ⟨t, ht⟩ := List.dropWhile_suffix (l := (l.dropWhile pyIsSpace).reverse) pyIsSpace
    have hne : (l.dropWhile pyIsSpace).reverse.dropWhile pyIsSpace ≠ [] := by
      intro h0
      rw [h0] at ha
      simp at ha
    have hlast : (t ++ (l.dropWhile pyIsSpace).reverse.dropWhile pyIsSpace).getLast? = some a := by
      rw [List.getLast?_append, ha]
      rfl
    rw [ht, List.getLast?_reverse] at hlast
    exact dropWhile_head_not pyIsSpace l a hlast
  rw [h1, List.reverse_reverse, List.dropWhile_idempotent]

theorem pyStrip_idem (s : String) : pyStrip (pyStrip s) = pyStrip s := by
  unfold pyStrip
  exact congrArg String.mk (stripChars_idem s.data)

theorem pyStrip_empty : pyStrip "" = "" := rfl

theorem length_lt_one_eq_empty (s : String) (h : s.length < 1) : s = "" := by
  cases s with
  | mk l =>
    cases l with
    | nil => rfl
    | cons c cs => simp [String.length] at h

/-! ## Lemmas about `userSubmissionFromDict` -/

def rawDict (n e a r : String) : InputDict :=
  [("name", n), ("email", e), ("address", a), ("recipient_email", r)]

theorem userSubmissionFromDict_mem_error (d : InputDict) (x : FieldError)
    (hx : x ∈ errOf (validateNameField "name" d) ++ errOf (validateEmailField "email" d) ++
          errOf (validateNameField "address" d) ++ errOf (validateEmailField "recipient_email" d)) :
    ∃ errs, userSubmissionFromDict d = .error errs ∧ x ∈ errs := by
  unfold userSubmissionFromDict
  cases h1 : validateNameField "name" d <;>
    cases h2 : validateEmailField "email" d <;>
      cases h3 : validateNameField "address" d <;>
        cases h4 : validateEmailField "recipient_email" d <;>
          rw [h1, h2, h3, h4] at hx <;> simp_all [errOf]

theorem userSubmissionFromDict_ok_fields (d : InputDict) (s : UserSubmission)
    (h : userSubmissionFromDict d = .ok s) :
    validateNameField "name" d = .ok s.name ∧
    validateEmailField "email" d = .ok s.email ∧
    validateNameField "address" d = .ok s.address ∧
    validateEmailField "recipient_email" d = .ok s.recipient_email := by
  unfold userSubmissionFromDict at h
  cases h1 : validateNameField "name" d <;>
    cases h2 : validateEmailField "email" d <;>
      cases h3 : validateNameField "address" d <;>
        cases h4 : validateEmailField "recipient_email" d <;>
          rw [h1, h2, h3, h4] at h <;> simp_all
  subst h
  exact ⟨rfl, rfl, rfl, rfl⟩

theorem validateNameField_ok_strip (field n : String) (d : InputDict)
    (h : validateNameField field d = .ok n) :
    ∃ v, d.lookup field = some v ∧ n = pyStrip v ∧ n ≠ "" := by
  unfold validateNameField at h
  cases hl : d.lookup field with
  | none => rw [hl] at h; exact absurd h (by simp)
  | some v =>
    rw [hl] at h
    by_cases h1 : v.length < 1
    · simp [h1] at h
    · by_cases h2 : pyStrip v = ""
      · simp [h1, h2] at h
      · simp [h1, h2] at h
        subst h
        exact ⟨v, rfl, rfl, h2⟩

theorem validateEmailField_ok_id (field e : String) (d : InputDict)
    (h : validateEmailField field d = .ok e) :
    d.lookup field = some e ∧ validEmailString e = true := by
  unfold validateEmailField at h
  cases hl : d.lookup field with
  | none => rw [hl] at h; exact absurd h (by simp)
  | some v =>
    rw [hl] at h
    by_cases h1 : validEmailString v = true
    · simp [h1] at h
      subst h
      exact ⟨rfl, h1⟩
    · simp [h1] at h

/-- A stripped, nonempty name field re-validates to itself. -/
theorem validateNameField_fixed (field n : String) (d : InputDict)
    (hl : d.lookup field = some n) (hfix : pyStrip n = n) (hne : n ≠ "") :
    validateNameField field d = .ok n := by
  unfold validateNameField
  rw [hl]
  have hlen : ¬ n.length < 1 := fun hc => hne (length_lt_one_eq_empty _ hc)
  simp [hlen, hfix, hne]

/-- Re-validating the dict of an already-validated submission succeeds and
returns the same submission: stripping is idempotent and the email check
accepts the stored address unchanged. -/
theorem userSubmission_valid_idem (d : InputDict) (s : UserSubmission)
    (h : userSubmissionFromDict d = .ok s) :
    userSubmissionFromDict (subDict s) = .ok s := by
  obtain ⟨h1, h2, h3, h4⟩ := userSubmissionFromDict_ok_fields d s h
  obtain ⟨v1, _, hs1, hn1⟩ := validateNameField_ok_strip "name" s.name d h1
  obtain ⟨v3, _, hs3, hn3⟩ := validateNameField_ok_strip "address" s.address d h3
  obtain ⟨_, he2⟩ := validateEmailField_ok_id "email" s.email d h2
  obtain ⟨_, he4⟩ := validateEmailField_ok_id "recipient_email" s.recipient_email d h4
  have hn : validateNameField "name" (subDict s) = .ok s.name :=
    validateNameField_fixed "name" s.name (subDict s) rfl
      (by rw [hs1]; exact pyStrip_idem v1) hn1
  have ha : validateNameField "address" (subDict s) = .ok s.address :=
    validateNameField_fixed "address" s.address (subDict s) rfl
      (by rw [hs3]; exact pyStrip_idem v3) hn3
  have he : validateEmailField "email" (subDict s) = .ok s.email := by
    unfold validateEmailField
    have hl : (subDict s).lookup "email" = some s.email := rfl
    rw [hl]
    simp [he2]
  have hr : validateEmailField "recipient_email" (subDict s) = .ok s.recipient_email := by
    unfold validateEmailField
    have hl : (subDict s).lookup "recipient_email" = some s.recipient_email := rfl
    rw [hl]
    simp [he4]
  unfold userSubmissionFromDict
  rw [hn, he, ha, hr]

/-! ## Field-preservation lemmas for the workflow nodes

Each node writes only its own result slot (plus `error_message`,
`retry_count`, `success`, `final_message`); the other slots are
untouched. -/

theorem runValidateNode_doc (st : AgentState) :
    (runValidateNode st).doc_creation_result = st.doc_creation_result := by
  unfold runValidateNode
  split <;> rfl

theorem runValidateNode_export (st : AgentState) :
    (runValidateNode st).docx_export_result = st.docx_export_result := by
  unfold runValidateNode
  split <;> rfl

theorem runValidateNode_email (st : AgentState) :
    (runValidateNode st).email_result = st.email_result := by
  unfold runValidateNode
  split <;> rfl

theorem runCreateDocNode_val (o : StageOracles) (st : AgentState) :
    (runCreateDocNode o st).1.validation_result = st.validation_result := by
  unfold runCreateDocNode
  split
  · split <;> rfl
  · rfl

theorem runCreateDocNode_export (o : StageOracles) (st : AgentState) :
    (runCreateDocNode o st).1.docx_export_result = st.docx_export_result := by
  unfold runCreateDocNode
  split
  · split <;> rfl
  · rfl

theorem runCreateDocNode_email (o : StageOracles) (st : AgentState) :
    (runCreateDocNode o st).1.email_result = st.email_result := by
  unfold runCreateDocNode
  split
  · split <;> rfl
  · rfl

theorem runCreateDocNode_doc_isSome (o : StageOracles) (st : AgentState) :
    (runCreateDocNode o st).1.doc_creation_result.isSome = true := by
  unfold runCreateDocNode
  split
  · split <;> rfl
  · rfl

theorem runExportNode_val (o : StageOracles) (st : AgentState) :
    (runExportNode o st).1.validation_result = st.validation_result := by
  unfold runExportNode
  split
  · split <;> rfl
  · rfl

theorem runExportNode_doc (o : StageOracles) (st : AgentState) :
    (runExportNode o st).1.doc_creation_result = st.doc_creation_result := by
  unfold runExportNode
  split
  · split <;> rfl
  · rfl

theorem runExportNode_email (o : StageOracles) (st : AgentState) :
    (runExportNode o st).1.email_result = st.email_result := by
  unfold runExportNode
  split
  · split <;> rfl
  · rfl

theorem runExportNode_export_isSome (o : StageOracles) (st : AgentState) :
    (runExportNode o st).1.docx_export_result.isSome = true := by
  unfold runExportNode
  split
  · split <;> rfl
  · rfl

theorem runEmailNode_val (o : StageOracles) (st : AgentState) :
    (runEmailNode o st).1.validation_result = st.validation_result := by
  unfold runEmailNode
  split
  · split
    · split <;> rfl
    · rfl
  · rfl

theorem runEmailNode_doc (o : StageOracles) (st : AgentState) :
    (runEmailNode o st).1.doc_creation_result = st.doc_creation_result := by
  unfold runEmailNode
  split
  · split
    · split <;> rfl
    · rfl
  · rfl

theorem runEmailNode_export (o : StageOracles) (st : AgentState) :
    (runEmailNode o st).1.docx_export_result = st.docx_export_result := by
  unfold runEmailNode
  split
  · split
    · split <;> rfl
    · rfl
  · rfl

theorem runHandleErrorNode_val (st : AgentState) :
    (runHandleErrorNode st).validation_result = st.validation_result := by
  unfold runHandleErrorNode
  split <;> rfl

theorem runHandleErrorNode_doc (st : AgentState) :
    (runHandleErrorNode st).doc_creation_result = st.doc_creation_result := by
  unfold runHandleErrorNode
  split <;> rfl

theorem runHandleErrorNode_export (st : AgentState) :
    (runHandleErrorNode st).docx_export_result = st.docx_export_result := by
  unfold runHandleErrorNode
  split <;> rfl

theorem runHandleErrorNode_email (st : AgentState) :
    (runHandleErrorNode st).email_result = st.email_result := by
  unfold runHandleErrorNode
  split <;> rfl

theorem runFinalizeNode_val (st : AgentState) :
    (runFinalizeNode st).validation_result = st.validation_result := by
  unfold runFinalizeNode
  split <;> rfl

theorem runFinalizeNode_doc (st : AgentState) :
    (runFinalizeNode st).doc_creation_result = st.doc_creation_result := by
  unfold runFinalizeNode
  split <;> rfl

theorem runFinalizeNode_export (st : AgentState) :
    (runFinalizeNode st).docx_export_result = st.docx_export_result := by
  unfold runFinalizeNode
  split <;> rfl

theorem runFinalizeNode_email (st : AgentState) :
    (runFinalizeNode st).email_result = st.email_result := by
  unfold runFinalizeNode
  split <;> rfl

/-- Node `_finalize` sets the success flag exactly to the conjunction of the
four recorded `success` entries. -/
theorem runFinalizeNode_success (st : AgentState) :
    (runFinalizeNode st).success =
      (st.validationOk && st.docOk && st.exportOk && st.emailOk) := by
  unfold runFinalizeNode
  split <;> simp_all

theorem AgentState.validationOk_eq (st : AgentState) :
    st.validationOk = (st.validation_result.map ValidationResult.success).getD false := rfl

theorem AgentState.docOk_eq (st : AgentState) :
    st.docOk = (st.doc_creation_result.map DocCreationResult.success).getD false := rfl

theorem AgentState.exportOk_eq (st : AgentState) :
    st.exportOk = (st.docx_export_result.map ExportResult.success).getD false := rfl

theorem AgentState.emailOk_eq (st : AgentState) :
    st.emailOk = (st.email_result.map EmailResult.success).getD false := rfl

/-- A stage node emits its single tool-invocation event exactly when it
reaches the tool call. -/
theorem runCreateDocNode_events (o : StageOracles) (st : AgentState) :
    (runCreateDocNode o st).2 = [.docCall] ∨ (runCreateDocNode o st).2 = [] := by
  unfold runCreateDocNode
  split
  · split <;> exact Or.inl rfl
  · exact Or.inr rfl

theorem runExportNode_events (o : StageOracles) (st : AgentState) :
    (runExportNode o st).2 = [.exportCall] ∨ (runExportNode o st).2 = [] := by
  unfold runExportNode
  split
  · split <;> exact Or.inl rfl
  · exact Or.inr rfl

theorem runEmailNode_events (o : StageOracles) (st : AgentState) :
    (runEmailNode o st).2 = [.emailCall] ∨ (runEmailNode o st).2 = [] := by
  unfold runEmailNode
  split
  · split
    · split <;> exact Or.inl rfl
    · exact Or.inr rfl
  · exact Or.inr rfl

/-- The recorded validation result of a run does not depend on the stage
oracles: it is fixed by the validation node alone. -/
theorem runWorkflow_val (o : StageOracles) (input : InputDict) :
    (runWorkflow o input).1.validation_result
      = (runValidateNode (initialState input)).validation_result := by
  unfold runWorkflow
  dsimp only
  repeat' split
  all_goals simp [runFinalizeNode_val, runHandleErrorNode_val, runEmailNode_val,
    runExportNode_val, runCreateDocNode_val]

/-- Every successful `get_credentials` call stores the credential it
returns in the in-memory cache (`self._creds = creds; return creds`). -/
theorem loadAndRenew_caches (w : CredWorld) (c : TokenInfo) (m1 : Option TokenInfo)
    (tr : List CredEvent) (h : loadAndRenew w = .ok (c, m1, tr)) : m1 = some c := by
  unfold loadAndRenew at h
  repeat' split at h
  all_goals
    first
      | (simp only [Except.ok.injEq, Prod.mk.injEq] at h
         rw [← h.2.1, ← h.1])
      | simp at h

theorem get_credentials_caches (m : Option TokenInfo) (w : CredWorld)
    (c : TokenInfo) (m1 : Option TokenInfo) (tr : List CredEvent)
    (h : get_credentials m w = .ok (c, m1, tr)) : m1 = some c := by
  unfold get_credentials at h
  split at h
  · split at h
    · simp only [Except.ok.injEq, Prod.mk.injEq] at h
      rw [← h.2.1, ← h.1]
    · exact loadAndRenew_caches w c m1 tr h
  · exact loadAndRenew_caches w c m1 tr h

/-! ## Concrete fixtures used by the claim theorems -/

def allSuccessStubs : StageOracles :=
  { docRun := fun _ =>
      .ok (.ok "doc-123" "https://docs.google.com/document/d/doc-123" "Submission - Jane Smith - T0")
    exportRun := fun _ => .ok (.ok "docx-bytes" docxMimeType)
    emailRun := fun _ _ _ _ => .ok (.ok "msg-456" "admin@co.com") }

def docFailOracles : StageOracles :=
  { docRun := fun _ => .ok (.failed "doc service down")
    exportRun := fun _ => .ok (.failed "unused")
    emailRun := fun _ _ _ _ => .ok (.failed "unused") }

def exportFailOracles : StageOracles :=
  { docRun := fun _ =>
      .ok (.ok "doc-1" "https://docs.google.com/document/d/doc-1" "t-1")
    exportRun := fun _ => .ok (.failed "export boom")
    emailRun := fun _ _ _ _ => .ok (.ok "m-1" "r-1") }

def goodInput : InputDict := rawDict "Jane Smith" "jane@x.com" "1 Oak Ave" "admin@co.com"

def goodSubmission : UserSubmission :=
  ⟨"Jane Smith", "jane@x.com", "1 Oak Ave", "admin@co.com"⟩

def badEmailInput : InputDict := rawDict "Jane Smith" "not-an-email" "1 Oak Ave" "admin@co.com"

def blankNameInput : InputDict := rawDict " " "jane@x.com" "1 Oak Ave" "admin@co.com"

def demoDocOracle : DocOracle :=
  { now := "2024-05-01T10:00:00"
    getDocsService := .ok ()
    docsCreate := fun _ => .ok "doc-777"
    batchUpdate := fun _ _ => .ok ()
    getDriveService := .ok ()
    driveMove := fun _ => .ok () }

def demoEmailOracle : EmailOracle :=
  { getGmailService := .ok ()
    gmailSend := fun _ => .ok "gm-1" }

def downExportOracle : ExportOracle :=
  { getDriveService := .error "drive auth failed"
    exportMedia := fun _ _ => .error "unused" }

def stDemo : AgentState :=
  { user_input := []
    validation_result := some (.ok (rawDict "N" "e@x.co" "A" "r@x.co"))
    doc_creation_result := some (.ok "d1" "u1" "t1")
    docx_export_result := some (.ok "c1" "m1")
    email_result := some (.ok "mid1" "rcpt1")
    error_message := ""
    retry_count := 0
    success := false
    final_message := "" }

def validTok : TokenInfo :=
  { valid := true, expired := false, refresh_token := true, tag := "tok-1" }

def expiredTok : TokenInfo :=
  { valid := false, expired := true, refresh_token := true, tag := "tok-old" }

def refreshedTok : TokenInfo :=
  { valid := true, expired := false, refresh_token := true, tag := "tok-new" }

def idleWorld : CredWorld :=
  { fileToken := none
    refreshResult := fun _ => .error "unreachable"
    flowResult := .error "unreachable" }

def refreshWorld : CredWorld :=
  { fileToken := some expiredTok
    refreshResult := fun _ => .ok refreshedTok
    flowResult := .error "unreachable" }

/-! ## Claim theorems -/

/-- Claim C1 (code evaluated at the failing configuration):
`process_submission` in `agent_backup.py` takes only `name`, `email`,
`address` — the `user_input` record it builds for the workflow carries no
`recipient_email` key, and since `UserSubmission` requires that field the
validation of this record always fails with a "field required" error.
The spec's four-argument entry-point contract cannot be met by this
signature. -/
theorem c1_process_submission_drops_recipient (n e a : String) :
    (mkUserInput n e a).lookup "recipient_email" = none ∧
    ∃ errs, userSubmissionFromDict (mkUserInput n e a) = .error errs ∧
      FieldError.required "recipient_email" ∈ errs := by
  refine ⟨rfl, ?_⟩
  apply userSubmissionFromDict_mem_error
  rw [show validateEmailField "recipient_email" (mkUserInput n e a)
      = .error (.required "recipient_email") from rfl]
  simp [errOf]

/-- Claim C2: the pipeline short-circuits.  If the Document Creator stage
records a failure, the Exporter and Email Sender results are never
computed (their state slots stay empty and their tool-invocation events
never occur) and the final success flag is false; and in general a later
stage's result is recorded only when every prior stage recorded `Ok`. -/
theorem c2_pipeline_short_circuit (o : StageOracles) (input : InputDict) :
    (∀ r, (runWorkflow o input).1.doc_creation_result = some r → r.success = false →
      (runWorkflow o input).1.docx_export_result = none ∧
      (runWorkflow o input).1.email_result = none ∧
      (runWorkflow o input).1.success = false ∧
      StageEvent.exportCall ∉ (runWorkflow o input).2 ∧
      StageEvent.emailCall ∉ (runWorkflow o input).2) ∧
    ((runWorkflow o input).1.doc_creation_result.isSome = true →
      (runWorkflow o input).1.validationOk = true) ∧
    ((runWorkflow o input).1.docx_export_result.isSome = true →
      (runWorkflow o input).1.docOk = true ∧ (runWorkflow o input).1.validationOk = true) ∧
    ((runWorkflow o input).1.email_result.isSome = true →
      (runWorkflow o input).1.exportOk = true ∧ (runWorkflow o input).1.docOk = true ∧
      (runWorkflow o input).1.validationOk = true) := by
  have hdoc0 : (runValidateNode (initialState input)).doc_creation_result = none := by
    rw [runValidateNode_doc]; rfl
  have hexp0 : (runValidateNode (initialState input)).docx_export_result = none := by
    rw [runValidateNode_export]; rfl
  have heml0 : (runValidateNode (initialState input)).email_result = none := by
    rw [runValidateNode_email]; rfl
  unfold runWorkflow
  dsimp only
  by_cases h1 : (runValidateNode (initialState input)).validationOk = true
  case neg =>
    rw [if_neg h1]
    refine ⟨?_, ?_, ?_, ?_⟩
    · intro r hr _
      rw [runFinalizeNode_doc, runHandleErrorNode_doc, hdoc0] at hr
      cases hr
    · intro hs
      rw [runFinalizeNode_doc, runHandleErrorNode_doc, hdoc0] at hs
      cases hs
    · intro hs
      rw [runFinalizeNode_export, runHandleErrorNode_export, hexp0] at hs
      cases hs
    · intro hs
      rw [runFinalizeNode_email, runHandleErrorNode_email, heml0] at hs
      cases hs
  case pos =>
    rw [if_pos h1]
    by_cases h2 : (runCreateDocNode o (runValidateNode (initialState input))).1.docOk = true
    case neg =>
      rw [if_neg h2]
      refine ⟨?_, ?_, ?_, ?_⟩
      · intro r hr _
        refine ⟨?_, ?_, ?_, ?_, ?_⟩
        · rw [runFinalizeNode_export, runHandleErrorNode_export, runCreateDocNode_export, hexp0]
        · rw [runFinalizeNode_email, runHandleErrorNode_email, runCreateDocNode_email, heml0]
        · rw [runFinalizeNode_success]
          have hd : (runHandleErrorNode
              (runCreateDocNode o (runValidateNode (initialState input))).1).docOk = false := by
            rw [AgentState.docOk_eq, runHandleErrorNode_doc, ← AgentState.docOk_eq]
            exact Bool.eq_false_iff.mpr h2
          rw [hd]
          simp
        · rcases runCreateDocNode_events o (runValidateNode (initialState input)) with he | he <;>
            rw [he] <;> decide
        · rcases runCreateDocNode_events o (runValidateNode (initialState input)) with he | he <;>
            rw [he] <;> decide
      · intro _
        rw [AgentState.validationOk_eq, runFinalizeNode_val, runHandleErrorNode_val,
          runCreateDocNode_val, ← AgentState.validationOk_eq]
        exact h1
      · intro hs
        rw [runFinalizeNode_export, runHandleErrorNode_export, runCreateDocNode_export, hexp0] at hs
        cases hs
      · intro hs
        rw [runFinalizeNode_email, runHandleErrorNode_email, runCreateDocNode_email, heml0] at hs
        cases hs
    case pos =>
      rw [if_pos h2]
      by_cases h3 : (runExportNode o
          (runCreateDocNode o (runValidateNode (initialState input))).1).1.exportOk = true
      case neg =>
        rw [if_neg h3]
        refine ⟨?_, ?_, ?_, ?_⟩
        · intro r hr hfail
          exfalso
          rw [runFinalizeNode_doc, runHandleErrorNode_doc, runExportNode_doc] at hr
          rw [AgentState.docOk_eq, hr] at h2
          simp [hfail] at h2
        · intro _
          rw [AgentState.validationOk_eq, runFinalizeNode_val, runHandleErrorNode_val,
            runExportNode_val, runCreateDocNode_val, ← AgentState.validationOk_eq]
          exact h1
        · intro _
          constructor
          · rw [AgentState.docOk_eq, runFinalizeNode_doc, runHandleErrorNode_doc,
              runExportNode_doc, ← AgentState.docOk_eq]
            exact h2
          · rw [AgentState.validationOk_eq, runFinalizeNode_val, runHandleErrorNode_val,
              runExportNode_val, runCreateDocNode_val, ← AgentState.validationOk_eq]
            exact h1
        · intro hs
          rw [runFinalizeNode_email, runHandleErrorNode_email, runExportNode_email,
            runCreateDocNode_email, heml0] at hs
          cases hs
      case pos =>
        rw [if_pos h3]
        by_cases h4 : (runEmailNode o (runExportNode o
            (runCreateDocNode o (runValidateNode (initialState input))).1).1).1.emailOk = true
        case neg =>
          rw [if_neg h4]
          refine ⟨?_, ?_, ?_, ?_⟩
          · intro r hr hfail
            exfalso
            rw [runFinalizeNode_doc, runHandleErrorNode_doc, runEmailNode_doc,
              runExportNode_doc] at hr
            rw [AgentState.docOk_eq, hr] at h2
            simp [hfail] at h2
          · intro _
            rw [AgentState.validationOk_eq, runFinalizeNode_val, runHandleErrorNode_val,
              runEmailNode_val, runExportNode_val, runCreateDocNode_val,
              ← AgentState.validationOk_eq]
            exact h1
          · intro _
            constructor
            · rw [AgentState.docOk_eq, runFinalizeNode_doc, runHandleErrorNode_doc,
                runEmailNode_doc, runExportNode_doc, ← AgentState.docOk_eq]
              exact h2
            · rw [AgentState.validationOk_eq, runFinalizeNode_val, runHandleErrorNode_val,
                runEmailNode_val, runExportNode_val, runCreateDocNode_val,
                ← AgentState.validationOk_eq]
              exact h1
          · intro _
            refine ⟨?_, ?_, ?_⟩
            · rw [AgentState.exportOk_eq, runFinalizeNode_export, runHandleErrorNode_export,
                runEmailNode_export, ← AgentState.exportOk_eq]
              exact h3
            · rw [AgentState.docOk_eq, runFinalizeNode_doc, runHandleErrorNode_doc,
                runEmailNode_doc, runExportNode_doc, ← AgentState.docOk_eq]
              exact h2
            · rw [AgentState.validationOk_eq, runFinalizeNode_val, runHandleErrorNode_val,
                runEmailNode_val, runExportNode_val, runCreateDocNode_val,
                ← AgentState.validationOk_eq]
              exact h1
        case pos =>
          rw [if_pos h4]
          refine ⟨?_, ?_, ?_, ?_⟩
          · intro r hr hfail
            exfalso
            rw [runFinalizeNode_doc, runEmailNode_doc, runExportNode_doc] at hr
            rw [AgentState.docOk_eq, hr] at h2
            simp [hfail] at h2
          · intro _
            rw [AgentState.validationOk_eq, runFinalizeNode_val,
              runEmailNode_val, runExportNode_val, runCreateDocNode_val,
              ← AgentState.validationOk_eq]
            exact h1
          · intro _
            constructor
            · rw [AgentState.docOk_eq, runFinalizeNode_doc,
                runEmailNode_doc, runExportNode_doc, ← AgentState.docOk_eq]
              exact h2
            · rw [AgentState.validationOk_eq, runFinalizeNode_val,
                runEmailNode_val, runExportNode_val, runCreateDocNode_val,
                ← AgentState.validationOk_eq]
              exact h1
          · intro _
            refine ⟨?_, ?_, ?_⟩
            · rw [AgentState.exportOk_eq, runFinalizeNode_export,
                runEmailNode_export, ← AgentState.exportOk_eq]
              exact h3
            · rw [AgentState.docOk_eq, runFinalizeNode_doc,
                runEmailNode_doc, runExportNode_doc, ← AgentState.docOk_eq]
              exact h2
            · rw [AgentState.validationOk_eq, runFinalizeNode_val,
                runEmailNode_val, runExportNode_val, runCreateDocNode_val,
                ← AgentState.validationOk_eq]
              exact h1

/-- Witness for C2: with a Document Creator stub that records a failure
on the well-formed four-field input, the export and email slots stay
empty and the run fails. -/
theorem c2_pipeline_short_circuit_witness :
    (runWorkflow docFailOracles goodInput).1.docx_export_result = none ∧
    (runWorkflow docFailOracles goodInput).1.email_result = none ∧
    (runWorkflow docFailOracles goodInput).1.success = false :=
  ((c2_pipeline_short_circuit docFailOracles goodInput).1
      (DocCreationResult.failed "doc service down") rfl rfl).2.2.1 |>
    fun hsuccess =>
      ⟨((c2_pipeline_short_circuit docFailOracles goodInput).1
          (DocCreationResult.failed "doc service down") rfl rfl).1,
       ((c2_pipeline_short_circuit docFailOracles goodInput).1
          (DocCreationResult.failed "doc service down") rfl rfl).2.1,
       hsuccess⟩

/-- Claim C3, counterexample to "the final report includes the document
id, document URL, and email message id only when successful": a run whose
Document Creator succeeds and whose Exporter fails yields a report with
`success = false` that still carries the document id and url (the report
fields at agent_backup.py lines 311-313 are populated from whatever the
stages recorded, regardless of the success flag). -/
theorem c3_report_ids_on_failure_counterexample :
    (buildReport (runWorkflow exportFailOracles goodInput).1).success = false ∧
    (buildReport (runWorkflow exportFailOracles goodInput).1).document_id = some "doc-1" ∧
    (buildReport (runWorkflow exportFailOracles goodInput).1).document_url
      = some "https://docs.google.com/document/d/doc-1" :=
  ⟨rfl, rfl, rfl⟩

/-- Claim C3 (amended): `_finalize` sets the success flag to true iff all
four recorded stage results are Ok; the ids appear in the final message
only when successful (on failure the message is the `Workflow failed`
text); the report's `document_id`, `document_url` and `email_message_id`
fields carry the stage-recorded values regardless of the success flag. -/
theorem c3_finalize_contract (st : AgentState) :
    ((runFinalizeNode st).success = true ↔
      st.validationOk = true ∧ st.docOk = true ∧ st.exportOk = true ∧ st.emailOk = true) ∧
    ((runFinalizeNode st).success = true →
      (runFinalizeNode st).final_message =
        successMessage ((st.doc_creation_result.bind DocCreationResult.document_id?).getD "")
          ((st.doc_creation_result.bind DocCreationResult.document_url?).getD "")
          ((st.email_result.bind EmailResult.recipient?).getD "")
          ((st.email_result.bind EmailResult.message_id?).getD "")) ∧
    ((runFinalizeNode st).success = false →
      (runFinalizeNode st).final_message = "Workflow failed: " ++ st.error_message) ∧
    (buildReport (runFinalizeNode st)).document_id
      = st.doc_creation_result.bind DocCreationResult.document_id? ∧
    (buildReport (runFinalizeNode st)).document_url
      = st.doc_creation_result.bind DocCreationResult.document_url? ∧
    (buildReport (runFinalizeNode st)).email_message_id
      = st.email_result.bind EmailResult.message_id? := by
  refine ⟨?_, ?_, ?_, ?_, ?_, ?_⟩
  · rw [runFinalizeNode_success]
    simp [Bool.and_eq_true, and_assoc]
  · unfold runFinalizeNode
    split
    · intro _
      rfl
    · intro hs
      cases hs
  · unfold runFinalizeNode
    split
    · intro hs
      cases hs
    · intro _
      rfl
  · show (runFinalizeNode st).doc_creation_result.bind DocCreationResult.document_id? = _
    rw [runFinalizeNode_doc]
  · show (runFinalizeNode st).doc_creation_result.bind DocCreationResult.document_url? = _
    rw [runFinalizeNode_doc]
  · show (runFinalizeNode st).email_result.bind EmailResult.message_id? = _
    rw [runFinalizeNode_email]

/-- Witness for C3 (amended): on a state whose four recorded results are
all Ok, finalize reports success. -/
theorem c3_finalize_contract_witness : (runFinalizeNode stDemo).success = true :=
  (c3_finalize_contract stDemo).1.mpr ⟨rfl, rfl, rfl, rfl⟩

/-- Claim C4: `UserSubmission` validation fails with an EmptyField-style
error (the `min_length` message for the empty string, the
`Field cannot be empty` message for whitespace) whenever `name` or
`address` is blank after stripping; fails with the Invalid-email-format
error whenever `email` or `recipient_email` is rejected by the email
check; and otherwise succeeds with the stripped name and address and the
accepted (normalized) addresses. -/
theorem c4_validate_contract (n e a r : String) :
    (pyStrip n = "" →
      ∃ errs, userSubmissionFromDict (rawDict n e a r) = .error errs ∧
        (FieldError.minLength "name" ∈ errs ∨ FieldError.emptyField "name" ∈ errs)) ∧
    (pyStrip a = "" →
      ∃ errs, userSubmissionFromDict (rawDict n e a r) = .error errs ∧
        (FieldError.minLength "address" ∈ errs ∨ FieldError.emptyField "address" ∈ errs)) ∧
    (validEmailString e = false →
      ∃ errs, userSubmissionFromDict (rawDict n e a r) = .error errs ∧
        FieldError.invalidEmail "email" ∈ errs) ∧
    (validEmailString r = false →
      ∃ errs, userSubmissionFromDict (rawDict n e a r) = .error errs ∧
        FieldError.invalidEmail "recipient_email" ∈ errs) ∧
    (pyStrip n ≠ "" → pyStrip a ≠ "" → validEmailString e = true → validEmailString r = true →
      userSubmissionFromDict (rawDict n e a r) = .ok ⟨pyStrip n, e, pyStrip a, r⟩) := by
  refine ⟨?_, ?_, ?_, ?_, ?_⟩
  · intro hstrip
    have hname : validateNameField "name" (rawDict n e a r) = .error (.minLength "name") ∨
        validateNameField "name" (rawDict n e a r) = .error (.emptyField "name") := by
      unfold validateNameField
      rw [show (rawDict n e a r).lookup "name" = some n from rfl]
      by_cases hlen : n.length < 1
      · left
        simp [hlen]
      · right
        simp [hlen, hstrip]
    rcases hname with hcase | hcase
    · obtain ⟨errs, hu, hm⟩ := userSubmissionFromDict_mem_error (rawDict n e a r)
        (.minLength "name") (by rw [hcase]; simp [errOf])
      exact ⟨errs, hu, Or.inl hm⟩
    · obtain ⟨errs, hu, hm⟩ := userSubmissionFromDict_mem_error (rawDict n e a r)
        (.emptyField "name") (by rw [hcase]; simp [errOf])
      exact ⟨errs, hu, Or.inr hm⟩
  · intro hstrip
    have haddr : validateNameField "address" (rawDict n e a r) = .error (.minLength "address") ∨
        validateNameField "address" (rawDict n e a r) = .error (.emptyField "address") := by
      unfold validateNameField
      rw [show (rawDict n e a r).lookup "address" = some a from rfl]
      by_cases hlen : a.length < 1
      · left
        simp [hlen]
      · right
        simp [hlen, hstrip]
    rcases haddr with hcase | hcase
    · obtain ⟨errs, hu, hm⟩ := userSubmissionFromDict_mem_error (rawDict n e a r)
        (.minLength "address") (by rw [hcase]; simp [errOf])
      exact ⟨errs, hu, Or.inl hm⟩
    · obtain ⟨errs, hu, hm⟩ := userSubmissionFromDict_mem_error (rawDict n e a r)
        (.emptyField "address") (by rw [hcase]; simp [errOf])
      exact ⟨errs, hu, Or.inr hm⟩
  · intro hval
    have he : validateEmailField "email" (rawDict n e a r) = .error (.invalidEmail "email") := by
      unfold validateEmailField
      rw [show (rawDict n e a r).lookup "email" = some e from rfl]
      simp [hval]
    exact userSubmissionFromDict_mem_error (rawDict n e a r) (.invalidEmail "email")
      (by rw [he]; simp [errOf])
  · intro hval
    have hrr : validateEmailField "recipient_email" (rawDict n e a r)
        = .error (.invalidEmail "recipient_email") := by
      unfold validateEmailField
      rw [show (rawDict n e a r).lookup "recipient_email" = some r from rfl]
      simp [hval]
    exact userSubmissionFromDict_mem_error (rawDict n e a r) (.invalidEmail "recipient_email")
      (by rw [hrr]; simp [errOf])
  · intro hn ha he hr
    have f1 : validateNameField "name" (rawDict n e a r) = .ok (pyStrip n) := by
      unfold validateNameField
      rw [show (rawDict n e a r).lookup "name" = some n from rfl]
      have hlen : ¬ n.length < 1 := by
        intro hc
        apply hn
        rw [length_lt_one_eq_empty n hc]
        exact pyStrip_empty
      simp [hlen, hn]
    have f2 : validateEmailField "email" (rawDict n e a r) = .ok e := by
      unfold validateEmailField
      rw [show (rawDict n e a r).lookup "email" = some e from rfl]
      simp [he]
    have f3 : validateNameField "address" (rawDict n e a r) = .ok (pyStrip a) := by
      unfold validateNameField
      rw [show (rawDict n e a r).lookup "address" = some a from rfl]
      have hlen : ¬ a.length < 1 := by
        intro hc
        apply ha
        rw [length_lt_one_eq_empty a hc]
        exact pyStrip_empty
      simp [hlen, ha]
    have f4 : validateEmailField "recipient_email" (rawDict n e a r) = .ok r := by
      unfold validateEmailField
      rw [show (rawDict n e a r).lookup "recipient_email" = some r from rfl]
      simp [hr]
    unfold userSubmissionFromDict
    rw [f1, f2, f3, f4]

/-- Witness for C4: a name with surrounding whitespace and well-formed
addresses validates to the stripped/normalized submission. -/
theorem c4_validate_contract_witness :
    userSubmissionFromDict (rawDict "  Jane Smith  " "jane@x.com" "1 Oak Ave" "admin@co.com")
      = .ok ⟨pyStrip "  Jane Smith  ", "jane@x.com", pyStrip "1 Oak Ave", "admin@co.com"⟩ :=
  (c4_validate_contract "  Jane Smith  " "jane@x.com" "1 Oak Ave" "admin@co.com").2.2.2.2
    (by decide) (by decide) rfl rfl

/-- Claim C5 (code evaluated at the failing input): on the spec's
end-to-end scenario input, with every stage stub succeeding,
`process_submission` of agent_backup.py returns a failed report with no
ids — its `user_input` lacks `recipient_email`, so validation fails —
while the same stubs on the full four-field input dict drive the
workflow to success.  The claimed `success = true` outcome does not hold
on this code. -/
theorem c5_end_to_end_scenario_fails :
    (processSubmission allSuccessStubs "Jane Smith" "jane@x.com" "1 Oak Ave").success = false ∧
    (processSubmission allSuccessStubs "Jane Smith" "jane@x.com" "1 Oak Ave").document_id
      = none ∧
    (processSubmission allSuccessStubs "Jane Smith" "jane@x.com" "1 Oak Ave").email_message_id
      = none ∧
    (processSubmission allSuccessStubs "Jane Smith" "jane@x.com" "1 Oak Ave").message
      = "Workflow failed: Input validation failed: recipient_email: field required" ∧
    (runWorkflow allSuccessStubs goodInput).1.success = true ∧
    (buildReport (runWorkflow allSuccessStubs goodInput).1).document_id = some "doc-123" ∧
    (buildReport (runWorkflow allSuccessStubs goodInput).1).email_message_id = some "msg-456" :=
  ⟨rfl, rfl, rfl, rfl, rfl, rfl, rfl⟩

/-- Claim C6: when a call to `get_credentials` returns a valid credential
(which it always leaves in the in-memory cache), a second call — in any
world state — hits the `self._creds and self._creds.valid` fast path:
it returns the cached credential unchanged with an empty event trace
(zero network calls, zero file reads or writes). -/
theorem c6_cached_credential_idempotent (m : Option TokenInfo) (w w2 : CredWorld)
    (c : TokenInfo) (m1 : Option TokenInfo) (tr : List CredEvent)
    (h : get_credentials m w = .ok (c, m1, tr)) (hv : c.valid = true) :
    m1 = some c ∧ get_credentials m1 w2 = .ok (c, m1, []) := by
  have hm := get_credentials_caches m w c m1 tr h
  subst hm
  refine ⟨rfl, ?_⟩
  unfold get_credentials
  simp [hv]

/-- Witness for C6: a second call after a cache-hit call returns the
cached credential with no events. -/
theorem c6_cached_credential_idempotent_witness :
    get_credentials (some validTok) idleWorld = .ok (validTok, some validTok, []) :=
  (c6_cached_credential_idempotent (some validTok) idleWorld idleWorld validTok
    (some validTok) [] rfl rfl).2

/-- Claim C7: with no valid in-memory credential and a persisted token
that is expired but carries a refresh token, `get_credentials` performs
exactly one refresh exchange and one token-file write (the trace is
read, refresh, write), caches the refreshed credential, and returns
it. -/
theorem c7_refresh_path (m : Option TokenInfo) (w : CredWorld) (c c2 : TokenInfo)
    (hm : m = none ∨ ∃ c0, m = some c0 ∧ c0.valid = false)
    (hf : w.fileToken = some c) (hvalid : c.valid = false) (hexp : c.expired = true)
    (hrt : c.refresh_token = true) (hr : w.refreshResult c = .ok c2) :
    get_credentials m w
      = .ok (c2, some c2, [.fileRead, .refreshCall, .fileWrite]) ∧
    ((.refreshCall : CredEvent) ∈ [CredEvent.fileRead, .refreshCall, .fileWrite] ∧
      (List.count CredEvent.refreshCall [CredEvent.fileRead, .refreshCall, .fileWrite] = 1 ∧
       List.count CredEvent.fileWrite [CredEvent.fileRead, .refreshCall, .fileWrite] = 1)) := by
  refine ⟨?_, by decide, by decide, by decide⟩
  rcases hm with rfl | ⟨c0, rfl, h0⟩
  · unfold get_credentials loadAndRenew
    simp [hf, hvalid, hexp, hrt, hr]
  · unfold get_credentials loadAndRenew
    simp [hf, hvalid, hexp, hrt, hr, h0]

/-- Witness for C7: with an empty cache and an expired-but-refreshable
persisted token, the call returns the refreshed token after exactly a
read, one refresh exchange, and one file write. -/
theorem c7_refresh_path_witness :
    get_credentials none refreshWorld
      = .ok (refreshedTok, some refreshedTok, [.fileRead, .refreshCall, .fileWrite]) :=
  (c7_refresh_path none refreshWorld expiredTok refreshedTok (Or.inl rfl)
    rfl rfl rfl rfl rfl).1

/-- Claim C8, counterexample to "no stage re-validates its input / the
Document Creator never re-applies the Submission validity check":
on an input that never passed validation (blank name), the embedded
`CreateGoogleDocTool._run` (tools.py line 142 re-runs
`UserSubmission(**submission_data)`) returns a validation failure and
performs no service calls, whereas the spec's no-validation reference
version creates the document — the two differ, so the stage does apply
the validity check. -/
theorem c8_doc_creator_revalidates_counterexample :
    createDocRun demoDocOracle none blankNameInput
      ≠ createDocNoValidation demoDocOracle none blankNameInput ∧
    (createDocRun demoDocOracle none blankNameInput).2 = [] ∧
    (createDocNoValidation demoDocOracle none blankNameInput).2 ≠ [] := by
  refine ⟨?_, rfl, ?_⟩ <;> decide

/-- Claim C8 (amended): the Document Creator does re-apply the
`UserSubmission` validity check to its input, but on every submission
that has already passed validation the re-check is observationally
transparent: the stage returns the same result and performs the same
service calls as the spec's reference version without validation. -/
theorem c8_doc_creator_refines_no_validation (o : DocOracle) (drive_folder_id : Option String)
    (d : InputDict) (s : UserSubmission) (h : userSubmissionFromDict d = .ok s) :
    createDocRun o drive_folder_id (subDict s)
      = createDocNoValidation o drive_folder_id (subDict s) := by
  have hval := userSubmission_valid_idem d s h
  unfold createDocRun createDocNoValidation
  rw [hval]
  rfl

/-- Witness for C8 (amended): on the validated example submission the two
versions agree. -/
theorem c8_doc_creator_refines_no_validation_witness :
    createDocRun demoDocOracle none (subDict goodSubmission)
      = createDocNoValidation demoDocOracle none (subDict goodSubmission) :=
  c8_doc_creator_refines_no_validation demoDocOracle none goodInput goodSubmission rfl

/-- Claim C9: the validator is pure and deterministic — the recorded
validation result of a workflow run does not depend on the stage oracles
(the external world), it is fixed by the input record alone; and when
validation fails, the run performs no external stage call at all (the
event trace is empty). -/
theorem c9_validator_pure (input : InputDict) (o1 o2 : StageOracles) :
    (runWorkflow o1 input).1.validation_result = (runWorkflow o2 input).1.validation_result ∧
    (runWorkflow o1 input).1.validation_result
      = (runValidateNode (initialState input)).validation_result ∧
    ((runValidateNode (initialState input)).validationOk = false →
      (runWorkflow o1 input).2 = []) := by
  refine ⟨?_, runWorkflow_val o1 input, ?_⟩
  · rw [runWorkflow_val o1 input, runWorkflow_val o2 input]
  · intro h
    unfold runWorkflow
    dsimp only
    rw [if_neg (by rw [h]; exact Bool.false_ne_true)]

/-- Witness for C9: on the malformed-email input the run with any of two
different stage oracles performs zero stage calls. -/
theorem c9_validator_pure_witness :
    (runWorkflow allSuccessStubs badEmailInput).2 = [] :=
  (c9_validator_pure badEmailInput allSuccessStubs docFailOracles).2.2 rfl

/-- Claim C10: each stage tool is total at its boundary — its result is
either the success record carrying the stage payload or the failure
record carrying an error string — and a raise from any wrapped service
call is caught and converted into the failure record carrying `str(e)`;
on the all-success paths the tools return the stage payloads. -/
theorem c10_stage_tools_contract (od : DocOracle) (drive_folder_id : Option String)
    (d : InputDict) (oe : ExportOracle) (document_id : String) (om : EmailOracle)
    (docx_content document_title document_url submission_name recipient_email : String) :
    ((∃ i u t, (createDocRun od drive_folder_id d).1 = .ok i u t) ∨
      ∃ msg, (createDocRun od drive_folder_id d).1 = .failed msg) ∧
    ((∃ c m, exportDocxRun oe document_id = .ok c m) ∨
      ∃ msg, exportDocxRun oe document_id = .failed msg) ∧
    ((∃ mid rc, sendEmailRun om docx_content document_title document_url
        submission_name recipient_email = .ok mid rc) ∨
      ∃ msg, sendEmailRun om docx_content document_title document_url
        submission_name recipient_email = .failed msg) ∧
    (∀ e, oe.getDriveService = .error e → exportDocxRun oe document_id = .failed e) ∧
    (∀ c, oe.getDriveService = .ok () → oe.exportMedia document_id docxMimeType = .ok c →
      exportDocxRun oe document_id = .ok c docxMimeType) ∧
    (∀ e, om.getGmailService = .error e →
      sendEmailRun om docx_content document_title document_url
        submission_name recipient_email = .failed e) ∧
    (∀ mid, om.getGmailService = .ok () →
      om.gmailSend (mimeRawMessage recipient_email ("New Submission: " ++ submission_name)
        (emailBodyText submission_name document_title document_url)
        (document_title ++ ".docx") docx_content) = .ok mid →
      sendEmailRun om docx_content document_title document_url
        submission_name recipient_email = .ok mid recipient_email) ∧
    (∀ s e, userSubmissionFromDict d = .ok s → od.getDocsService = .error e →
      (createDocRun od drive_folder_id d).1 = .failed e) := by
  refine ⟨?_, ?_, ?_, ?_, ?_, ?_, ?_, ?_⟩
  · cases hx : (createDocRun od drive_folder_id d).1 with
    | ok i u t => exact Or.inl ⟨i, u, t, rfl⟩
    | failed msg => exact Or.inr ⟨msg, rfl⟩
  · cases hx : exportDocxRun oe document_id with
    | ok c m => exact Or.inl ⟨c, m, rfl⟩
    | failed msg => exact Or.inr ⟨msg, rfl⟩
  · cases hx : sendEmailRun om docx_content document_title document_url
        submission_name recipient_email with
    | ok mid rc => exact Or.inl ⟨mid, rc, rfl⟩
    | failed msg => exact Or.inr ⟨msg, rfl⟩
  · intro e he
    unfold exportDocxRun
    rw [he]
  · intro c h1 h2
    unfold exportDocxRun
    rw [h1, h2]
  · intro e he
    unfold sendEmailRun
    rw [he]
  · intro mid h1 h2
    unfold sendEmailRun
    rw [h1]
    dsimp only
    rw [h2]
  · intro s e hs he
    unfold createDocRun
    rw [hs]
    dsimp only
    rw [he]

/-- Witness for C10: a raise from the Drive service during export is
converted into the failure record carrying the error string. -/
theorem c10_stage_tools_contract_witness :
    exportDocxRun downExportOracle "doc-1" = .failed "drive auth failed" :=
  (c10_stage_tools_contract demoDocOracle none goodInput downExportOracle "doc-1"
    demoEmailOracle "c" "t" "u" "n" "r").2.2.2.1 "drive auth failed" rfl

end SubmissionProcessor
